import Mathlib

/-!
Shallow embedding of the bicycle anti-lock braking controller in
src/Milestone3/Milestone3/main.c (AVR ATMega328P, interrupt driven).

The mutable globals of the C file become the fields of `AbsState`; each
interrupt service routine becomes a state-transforming function.  All
uint32_t arithmetic is modelled on `Nat` with explicit reduction modulo
2 ^ 32 = 4294967296, and the implementation-defined uint32 -> int32
conversion used by `int32_t difference = frontWheelPeriod - rearWheelPeriod`
is modelled by `toSigned32` (two-complement wrap, as gcc on AVR does).
The classification value keeps the C encoding: 1 = FrontSlower,
-1 = RearSlower, 0 = Balanced.
-/

namespace BicycleABS

/-- Calibration constant `DIFFERENCE_THRESHOLD` (main.c line 26). -/
def DIFFERENCE_THRESHOLD : Int := 50

/-- Reduce an integer into the unsigned 32-bit range, as C uint32_t
arithmetic does (4294967296 = 2 ^ 32). -/
def u32 (n : Int) : Nat := (n % 4294967296).toNat

/-- uint32_t subtraction `a - b`, wrapping modulo 2 ^ 32. -/
def u32sub (a b : Nat) : Nat := u32 ((a : Int) - (b : Int))

/-- Reinterpret a uint32 value as int32 (two-complement), the
implementation-defined conversion gcc performs when a uint32_t expression
is assigned to an int32_t variable (2147483648 = 2 ^ 31). -/
def toSigned32 (n : Nat) : Int :=
  if n < 2147483648 then (n : Int) else (n : Int) - 4294967296

/-- The sentinel stored by `uint32_t frontWheelPeriod = -1;`: the value -1
converted to uint32_t, i.e. the all-ones pattern 4294967295. -/
def UNKNOWN : Nat := u32 (-1)

/-- The mutable global state of main.c: the two tick counters, the two
rising-edge start marks, the two published pulse widths (with `UNKNOWN`
as the no-fresh-measurement sentinel), the stored classification, and the
two PWM compare registers (the actuator commands). -/
structure AbsState where
  microsFrontWheel : Nat
  microsRearWheel : Nat
  startFrontWheel : Nat
  startRearWheel : Nat
  frontWheelPeriod : Nat
  rearWheelPeriod : Nat
  checkWheelsFrequenciesReturnValue : Int
  OCR1A : Int
  OCR1B : Int
deriving DecidableEq, Repr

/-- State at startup: globals initialised as in main.c (counters and start
marks 0, both periods `UNKNOWN`, classification 0); the AVR compare
registers OCR1A/OCR1B reset to 0. -/
def initState : AbsState :=
  { microsFrontWheel := 0
    microsRearWheel := 0
    startFrontWheel := 0
    startRearWheel := 0
    frontWheelPeriod := UNKNOWN
    rearWheelPeriod := UNKNOWN
    checkWheelsFrequenciesReturnValue := 0
    OCR1A := 0
    OCR1B := 0 }

/-- `checkWheelsFrequencies` (main.c lines 79-91): if either period is the
sentinel, return leaving everything unchanged; otherwise compute the
int32 difference, reset both periods to the sentinel, and store the
classification 1 / -1 / 0. -/
def checkWheelsFrequencies (s : AbsState) : AbsState :=
  if s.frontWheelPeriod = UNKNOWN ∨ s.rearWheelPeriod = UNKNOWN then s
  else
    let difference : Int := toSigned32 (u32sub s.frontWheelPeriod s.rearWheelPeriod)
    { s with
      frontWheelPeriod := UNKNOWN
      rearWheelPeriod := UNKNOWN
      checkWheelsFrequenciesReturnValue :=
        if difference > DIFFERENCE_THRESHOLD then 1
        else if difference < -DIFFERENCE_THRESHOLD then -1
        else 0 }

/-- The clamp at the head of `setServoPosition` (main.c line 97):
`if(value>235) value=235; else if(value<0) value=0;`. -/
def clampServoValue (value : Int) : Int :=
  if value > 235 then 235 else if value < 0 then 0 else value

/-- `setServoPosition` (main.c lines 95-102): evaluate the comparator,
clamp the requested value to [0,235], and write both compare registers.
`value<<4` on the clamped nonnegative value is `value * 16`; all written
values lie well inside the 16-bit register range, so no truncation is
modelled. -/
def setServoPosition (value : Int) (s : AbsState) : AbsState :=
  let s := checkWheelsFrequencies s
  let value := clampServoValue value
  { s with
    OCR1A := 1000 + (if s.checkWheelsFrequenciesReturnValue = 1 then 0 else value * 16)
    OCR1B := 1000 + (if s.checkWheelsFrequenciesReturnValue = -1 then 0 else value * 16) }

/-- `ISR(ADC_vect)` (main.c lines 106-109): one control cycle, driven by a
completed conversion with 8-bit result `ADCH`; calls
`setServoPosition(128 - ADCH)`. -/
def adcISR (ADCH : Nat) (s : AbsState) : AbsState :=
  setServoPosition (128 - (ADCH : Int)) s

/-- `ISR(TIMER2_COMPA_vect)` (main.c lines 112-115): the 10 microsecond
time base, incrementing both tick counters (uint32, wrapping). -/
def timer2CompAISR (s : AbsState) : AbsState :=
  { s with
    microsFrontWheel := u32 ((s.microsFrontWheel : Int) + 1)
    microsRearWheel := u32 ((s.microsRearWheel : Int) + 1) }

/-- `ISR(INT0_vect)` (main.c lines 119-129), the front wheel edge capture:
`pinHigh` is the sampled logic level `PIND & 1<<PORTD2`.  On a rising edge
record the current tick count; on a falling edge publish the elapsed width
and reset the tick counter to 0. -/
def int0ISR (pinHigh : Bool) (s : AbsState) : AbsState :=
  if pinHigh then
    { s with startFrontWheel := s.microsFrontWheel }
  else
    { s with
      frontWheelPeriod := u32sub s.microsFrontWheel s.startFrontWheel
      microsFrontWheel := 0 }

/-- `ISR(INT1_vect)` (main.c lines 133-143), the rear wheel edge capture,
symmetric to `int0ISR`. -/
def int1ISR (pinHigh : Bool) (s : AbsState) : AbsState :=
  if pinHigh then
    { s with startRearWheel := s.microsRearWheel }
  else
    { s with
      rearWheelPeriod := u32sub s.microsRearWheel s.startRearWheel
      microsRearWheel := 0 }

/-- One interrupt event: a timer tick, an edge (with sampled level) on one
of the two sensor lines, or a completed ADC conversion carrying the 8-bit
lever reading. -/
inductive Event where
  | tick
  | frontEdge (pinHigh : Bool)
  | rearEdge (pinHigh : Bool)
  | adc (reading : Nat)
deriving DecidableEq, Repr

/-- Whether an event is an ADC conversion (a control cycle). -/
def Event.isAdc : Event → Bool
  | .adc _ => true
  | _ => false

/-- Dispatch one interrupt event to its service routine. -/
def step (s : AbsState) (e : Event) : AbsState :=
  match e with
  | .tick => timer2CompAISR s
  | .frontEdge pinHigh => int0ISR pinHigh s
  | .rearEdge pinHigh => int1ISR pinHigh s
  | .adc reading => adcISR reading s

/-- Run a sequence of interrupt events from a state. -/
def run (s : AbsState) (es : List Event) : AbsState := es.foldl step s

/-- Both pulse-width samples are fresh (neither is the sentinel). -/
def bothFreshB (s : AbsState) : Bool :=
  s.frontWheelPeriod != UNKNOWN && s.rearWheelPeriod != UNKNOWN

/-- Along this event sequence, no ADC control cycle starts from a state in
which both samples are fresh: the condition for the comparator never to
update the stored classification. -/
def noDualFreshRun : AbsState → List Event → Bool
  | _, [] => true
  | s, e :: es => (!(e.isAdc && bothFreshB s)) && noDualFreshRun (step s e) es

theorem UNKNOWN_eq : UNKNOWN = 4294967295 := by decide

/-- If either sample is the sentinel, the comparator is the identity on
the whole state (the early return in main.c line 83). -/
theorem checkWheelsFrequencies_frame (s : AbsState)
    (h : s.frontWheelPeriod = UNKNOWN ∨ s.rearWheelPeriod = UNKNOWN) :
    checkWheelsFrequencies s = s := by
  unfold checkWheelsFrequencies
  exact if_pos h

/-- When both samples are fresh, the stored classification becomes the
three-way comparison of the wrapped int32 difference with the threshold. -/
theorem checkWheelsFrequencies_ret_of_fresh (s : AbsState)
    (hf : s.frontWheelPeriod ≠ UNKNOWN) (hr : s.rearWheelPeriod ≠ UNKNOWN) :
    (checkWheelsFrequencies s).checkWheelsFrequenciesReturnValue =
      (if toSigned32 (u32sub s.frontWheelPeriod s.rearWheelPeriod) > DIFFERENCE_THRESHOLD then 1
       else if toSigned32 (u32sub s.frontWheelPeriod s.rearWheelPeriod) < -DIFFERENCE_THRESHOLD
       then -1 else 0) := by
  unfold checkWheelsFrequencies
  rw [if_neg (by push_neg; exact ⟨hf, hr⟩)]

/-- The wrapped int32 difference agrees with the exact integer difference
whenever the latter fits in int32. -/
theorem toSigned32_u32sub_eq (f r : Nat)
    (hlo : -2147483648 < (f : Int) - (r : Int))
    (hhi : (f : Int) - (r : Int) < 2147483648) :
    toSigned32 (u32sub f r) = (f : Int) - (r : Int) := by
  unfold toSigned32 u32sub u32
  split <;> omega

/-- C1 (amended): when both samples are fresh, the classification follows
the threshold comparison of the signed difference, provided the exact
difference frontWheelPeriod - rearWheelPeriod fits in int32 (it is the
int32 two-complement reduction of the uint32 subtraction that the code
actually compares): FrontSlower (1) when the difference exceeds 50,
RearSlower (-1) when it is below -50, Balanced (0) otherwise. -/
theorem C1_classification_of_fresh (s : AbsState)
    (hf : s.frontWheelPeriod ≠ UNKNOWN) (hr : s.rearWheelPeriod ≠ UNKNOWN)
    (hlo : -2147483648 < (s.frontWheelPeriod : Int) - (s.rearWheelPeriod : Int))
    (hhi : (s.frontWheelPeriod : Int) - (s.rearWheelPeriod : Int) < 2147483648) :
    (checkWheelsFrequencies s).checkWheelsFrequenciesReturnValue =
      (if (s.frontWheelPeriod : Int) - (s.rearWheelPeriod : Int) > 50 then 1
       else if (s.frontWheelPeriod : Int) - (s.rearWheelPeriod : Int) < -50 then -1
       else 0) := by
  rw [checkWheelsFrequencies_ret_of_fresh s hf hr,
    toSigned32_u32sub_eq s.frontWheelPeriod s.rearWheelPeriod hlo hhi]
  rfl

/-- Witness for C1 at the spec test vector front 120, rear 60: the
difference 60 exceeds the threshold 50, so the classification is 1
(FrontSlower). -/
theorem C1_classification_of_fresh_witness :
    (checkWheelsFrequencies
      { initState with frontWheelPeriod := 120, rearWheelPeriod := 60
        }).checkWheelsFrequenciesReturnValue = 1 := by
  have h := C1_classification_of_fresh
    { initState with frontWheelPeriod := 120, rearWheelPeriod := 60 }
    (by decide) (by decide) (by decide) (by decide)
  simpa using h

/-- Counterexample to C1 as stated: with fresh samples front 0 and
rear 3000000000 (a garbage width a glitched edge sequence can publish),
the exact signed difference is -3000000000 < -50, so the claim requires
classification RearSlower (-1); the code wraps the difference to the
int32 value 1294967296 > 50 and stores FrontSlower (1) instead. -/
theorem C1_counterexample :
    ({ initState with frontWheelPeriod := 0, rearWheelPeriod := 3000000000
       } : AbsState).frontWheelPeriod ≠ UNKNOWN ∧
    ({ initState with frontWheelPeriod := 0, rearWheelPeriod := 3000000000
       } : AbsState).rearWheelPeriod ≠ UNKNOWN ∧
    (({ initState with frontWheelPeriod := 0, rearWheelPeriod := 3000000000
       } : AbsState).frontWheelPeriod : Int) -
      (({ initState with frontWheelPeriod := 0, rearWheelPeriod := 3000000000
       } : AbsState).rearWheelPeriod : Int) < -50 ∧
    (checkWheelsFrequencies
      { initState with frontWheelPeriod := 0, rearWheelPeriod := 3000000000
        }).checkWheelsFrequenciesReturnValue = 1 := by
  refine ⟨by decide, by decide, by decide, ?_⟩
  decide

/-- C2: whenever the frequency comparator evaluates with at least one
pulse-width sample Unknown (the sentinel), the stored classification after
the evaluation equals its value before the evaluation. -/
theorem C2_hold_last_decision (s : AbsState)
    (h : s.frontWheelPeriod = UNKNOWN ∨ s.rearWheelPeriod = UNKNOWN) :
    (checkWheelsFrequencies s).checkWheelsFrequenciesReturnValue =
      s.checkWheelsFrequenciesReturnValue := by
  rw [checkWheelsFrequencies_frame s h]

/-- Witness for C2 at a concrete state: front sample fresh (width 7), rear
still Unknown, previous classification 1; the evaluation keeps it at 1. -/
theorem C2_hold_last_decision_witness :
    (checkWheelsFrequencies
      { initState with frontWheelPeriod := 7, checkWheelsFrequenciesReturnValue := 1
        }).checkWheelsFrequenciesReturnValue = 1 :=
  C2_hold_last_decision
    { initState with frontWheelPeriod := 7, checkWheelsFrequenciesReturnValue := 1 }
    (Or.inr rfl)

/-- C7: whenever the comparator evaluates with both samples fresh, that
same evaluation resets both samples to Unknown, so each measurement is
consumed at most once. -/
theorem C7_single_consumption (s : AbsState)
    (hf : s.frontWheelPeriod ≠ UNKNOWN) (hr : s.rearWheelPeriod ≠ UNKNOWN) :
    (checkWheelsFrequencies s).frontWheelPeriod = UNKNOWN ∧
      (checkWheelsFrequencies s).rearWheelPeriod = UNKNOWN := by
  unfold checkWheelsFrequencies
  rw [if_neg (by push_neg; exact ⟨hf, hr⟩)]
  exact ⟨rfl, rfl⟩

/-- Witness for C7: with fresh widths front 120, rear 60, the evaluation
leaves both samples Unknown. -/
theorem C7_single_consumption_witness :
    (checkWheelsFrequencies
      { initState with frontWheelPeriod := 120, rearWheelPeriod := 60
        }).frontWheelPeriod = UNKNOWN ∧
    (checkWheelsFrequencies
      { initState with frontWheelPeriod := 120, rearWheelPeriod := 60
        }).rearWheelPeriod = UNKNOWN :=
  C7_single_consumption
    { initState with frontWheelPeriod := 120, rearWheelPeriod := 60 }
    (by decide) (by decide)

/-- C9: a control cycle (comparator evaluation included) that runs while
at least one sample is Unknown modifies neither pulse-width sample: in
particular a fresh sample on one wheel is not consumed and persists. -/
theorem C9_samples_persist (reading : Nat) (s : AbsState)
    (h : s.frontWheelPeriod = UNKNOWN ∨ s.rearWheelPeriod = UNKNOWN) :
    (adcISR reading s).frontWheelPeriod = s.frontWheelPeriod ∧
      (adcISR reading s).rearWheelPeriod = s.rearWheelPeriod := by
  unfold adcISR setServoPosition
  rw [checkWheelsFrequencies_frame s h]
  exact ⟨rfl, rfl⟩

/-- Witness for C9: a fresh front width 42 with the rear Unknown survives
a whole control cycle untouched. -/
theorem C9_samples_persist_witness :
    (adcISR 100 { initState with frontWheelPeriod := 42 }).frontWheelPeriod = 42 ∧
      (adcISR 100 { initState with frontWheelPeriod := 42 }).rearWheelPeriod = UNKNOWN :=
  C9_samples_persist 100 { initState with frontWheelPeriod := 42 } (Or.inr rfl)

/-- C3: in every control cycle, with c the classification stored by the
comparator evaluation of that cycle and b the clamped baseline intensity:
if c = 1 (FrontSlower) the front command is the minimum 1000 and the rear
command is 1000 + b * 16; if c = -1 (RearSlower) the rear command is 1000
and the front command is 1000 + b * 16; if c = 0 (Balanced) both commands
are 1000 + b * 16. -/
theorem C3_command_selection (value : Int) (s : AbsState) :
    ((checkWheelsFrequencies s).checkWheelsFrequenciesReturnValue = 1 →
      (setServoPosition value s).OCR1A = 1000 ∧
      (setServoPosition value s).OCR1B = 1000 + clampServoValue value * 16) ∧
    ((checkWheelsFrequencies s).checkWheelsFrequenciesReturnValue = -1 →
      (setServoPosition value s).OCR1B = 1000 ∧
      (setServoPosition value s).OCR1A = 1000 + clampServoValue value * 16) ∧
    ((checkWheelsFrequencies s).checkWheelsFrequenciesReturnValue = 0 →
      (setServoPosition value s).OCR1A = 1000 + clampServoValue value * 16 ∧
      (setServoPosition value s).OCR1B = 1000 + clampServoValue value * 16) := by
  refine ⟨fun hc => ?_, fun hc => ?_, fun hc => ?_⟩ <;>
    simp [setServoPosition, hc]

/-- Witness for C3, one concrete cycle per classification: fresh widths
120/60 give c = 1 (front forced to 1000, rear 2600); widths 60/120 give
c = -1 (rear forced to 1000, front 2600); widths 80/100 give c = 0 (both
2600); the lever value 100 is within [0,235], so b = 100. -/
theorem C3_command_selection_witness :
    ((setServoPosition 100
        { initState with frontWheelPeriod := 120, rearWheelPeriod := 60 }).OCR1A = 1000 ∧
      (setServoPosition 100
        { initState with frontWheelPeriod := 120, rearWheelPeriod := 60 }).OCR1B = 2600) ∧
    ((setServoPosition 100
        { initState with frontWheelPeriod := 60, rearWheelPeriod := 120 }).OCR1B = 1000 ∧
      (setServoPosition 100
        { initState with frontWheelPeriod := 60, rearWheelPeriod := 120 }).OCR1A = 2600) ∧
    ((setServoPosition 100
        { initState with frontWheelPeriod := 80, rearWheelPeriod := 100 }).OCR1A = 2600 ∧
      (setServoPosition 100
        { initState with frontWheelPeriod := 80, rearWheelPeriod := 100 }).OCR1B = 2600) := by
  refine ⟨?_, ?_, ?_⟩
  · have h := (C3_command_selection 100
      { initState with frontWheelPeriod := 120, rearWheelPeriod := 60 }).1 (by decide)
    simpa using h
  · have h := (C3_command_selection 100
      { initState with frontWheelPeriod := 60, rearWheelPeriod := 120 }).2.1 (by decide)
    simpa using h
  · have h := (C3_command_selection 100
      { initState with frontWheelPeriod := 80, rearWheelPeriod := 100 }).2.2 (by decide)
    simpa using h

/-- C4: the baseline intensity of one lever-sample cycle — the ISR passes
128 - reading to setServoPosition, which clamps it — equals
clamp(128 - reading, 0, 235) for every 8-bit reading; in particular any
reading of 128 or more yields baseline 0. -/
theorem C4_baseline_clamp (reading : Nat) (h : reading ≤ 255) :
    clampServoValue (128 - (reading : Int)) =
      max 0 (min 235 (128 - (reading : Int))) ∧
    (128 ≤ reading → clampServoValue (128 - (reading : Int)) = 0) := by
  unfold clampServoValue
  constructor
  · split_ifs <;> omega
  · intro hr
    split_ifs <;> omega

/-- Witness for C4 at reading 200 (at or above 128): the baseline is 0,
matching clamp(128 - 200, 0, 235). -/
theorem C4_baseline_clamp_witness :
    clampServoValue (128 - ((200 : Nat) : Int)) =
      max 0 (min 235 (128 - ((200 : Nat) : Int))) ∧
    (128 ≤ (200 : Nat) → clampServoValue (128 - ((200 : Nat) : Int)) = 0) :=
  C4_baseline_clamp 200 (by decide)

/-- C5: for every integer input to setServoPosition, including values
below 0 and above 255, the clamped intensity lies in [0, 235]; both
written commands lie in [1000, 1000 + 235 * 16] and each is either the
linear value 1000 + intensity * 16 or the minimum 1000. -/
theorem C5_command_range (value : Int) (s : AbsState) :
    (0 ≤ clampServoValue value ∧ clampServoValue value ≤ 235) ∧
    (1000 ≤ (setServoPosition value s).OCR1A ∧
      (setServoPosition value s).OCR1A ≤ 1000 + 235 * 16) ∧
    (1000 ≤ (setServoPosition value s).OCR1B ∧
      (setServoPosition value s).OCR1B ≤ 1000 + 235 * 16) ∧
    ((setServoPosition value s).OCR1A = 1000 + clampServoValue value * 16 ∨
      (setServoPosition value s).OCR1A = 1000) ∧
    ((setServoPosition value s).OCR1B = 1000 + clampServoValue value * 16 ∨
      (setServoPosition value s).OCR1B = 1000) := by
  have hb : 0 ≤ clampServoValue value ∧ clampServoValue value ≤ 235 := by
    unfold clampServoValue
    split_ifs <;> omega
  refine ⟨hb, ?_, ?_, ?_, ?_⟩ <;>
    simp only [setServoPosition] <;>
    split <;>
    omega

/-- C6: for each wheel channel, a rising edge taken while the channel tick
counter reads 0 records start mark 0; a later falling edge taken while the
counter reads N (the start mark still the recorded one, i.e. no
intervening reset) publishes the pulse width exactly N and leaves the tick
counter at 0.  N < 4294967296 because the counter is a uint32. -/
theorem C6_edge_capture_round_trip (N : Nat) (hN : N < 4294967296)
    (s t u v : AbsState)
    (h0f : s.microsFrontWheel = 0)
    (hmarkf : t.startFrontWheel = (int0ISR true s).startFrontWheel)
    (hcntf : t.microsFrontWheel = N)
    (h0r : u.microsRearWheel = 0)
    (hmarkr : v.startRearWheel = (int1ISR true u).startRearWheel)
    (hcntr : v.microsRearWheel = N) :
    ((int0ISR false t).frontWheelPeriod = N ∧ (int0ISR false t).microsFrontWheel = 0) ∧
    ((int1ISR false v).rearWheelPeriod = N ∧ (int1ISR false v).microsRearWheel = 0) := by
  have hf1 : (int0ISR true s).startFrontWheel = s.microsFrontWheel := rfl
  have hf2 : (int0ISR false t).frontWheelPeriod =
      u32sub t.microsFrontWheel t.startFrontWheel := rfl
  have hf3 : (int0ISR false t).microsFrontWheel = 0 := rfl
  have hr1 : (int1ISR true u).startRearWheel = u.microsRearWheel := rfl
  have hr2 : (int1ISR false v).rearWheelPeriod =
      u32sub v.microsRearWheel v.startRearWheel := rfl
  have hr3 : (int1ISR false v).microsRearWheel = 0 := rfl
  refine ⟨⟨?_, hf3⟩, ?_, hr3⟩
  · rw [hf2, hmarkf, hf1, h0f, hcntf]
    unfold u32sub u32
    omega
  · rw [hr2, hmarkr, hr1, h0r, hcntr]
    unfold u32sub u32
    omega

/-- Witness for C6 with N = 7 on both channels: rising at counter 0, seven
ticks later a falling edge publishes width 7 and resets the counter. -/
theorem C6_edge_capture_round_trip_witness :
    ((int0ISR false
        { initState with microsFrontWheel := 7 }).frontWheelPeriod = 7 ∧
      (int0ISR false
        { initState with microsFrontWheel := 7 }).microsFrontWheel = 0) ∧
    ((int1ISR false
        { initState with microsRearWheel := 7 }).rearWheelPeriod = 7 ∧
      (int1ISR false
        { initState with microsRearWheel := 7 }).microsRearWheel = 0) :=
  C6_edge_capture_round_trip 7 (by decide)
    initState { initState with microsFrontWheel := 7 }
    initState { initState with microsRearWheel := 7 }
    rfl rfl rfl rfl rfl rfl

/-- `bothFreshB` is false exactly when some sample is the sentinel. -/
theorem bothFreshB_eq_false_iff (s : AbsState) :
    bothFreshB s = false ↔
      (s.frontWheelPeriod = UNKNOWN ∨ s.rearWheelPeriod = UNKNOWN) := by
  simp [bothFreshB]
  tauto

/-- Running an interrupt sequence splits over append. -/
theorem run_append (s : AbsState) (l₁ l₂ : List Event) :
    run s (l₁ ++ l₂) = run (run s l₁) l₂ := by
  simp [run]

/-- A control cycle entered with at most one fresh sample keeps the stored
classification. -/
theorem adcISR_ret_of_not_bothFresh (reading : Nat) (s : AbsState)
    (h : bothFreshB s = false) :
    (adcISR reading s).checkWheelsFrequenciesReturnValue =
      s.checkWheelsFrequenciesReturnValue := by
  have hfr := (bothFreshB_eq_false_iff s).mp h
  simp only [adcISR, setServoPosition, checkWheelsFrequencies_frame s hfr]

/-- Along a sequence in which no control cycle sees both samples fresh,
the stored classification never changes. -/
theorem noDualFreshRun_ret (es : List Event) : ∀ s : AbsState,
    noDualFreshRun s es = true →
    (run s es).checkWheelsFrequenciesReturnValue =
      s.checkWheelsFrequenciesReturnValue := by
  induction es with
  | nil => intro s _; rfl
  | cons e es ih =>
    intro s h
    unfold noDualFreshRun at h
    rw [Bool.and_eq_true] at h
    have hstep : (step s e).checkWheelsFrequenciesReturnValue =
        s.checkWheelsFrequenciesReturnValue := by
      cases e with
      | tick => rfl
      | frontEdge pinHigh => cases pinHigh <;> rfl
      | rearEdge pinHigh => cases pinHigh <;> rfl
      | adc reading =>
        refine adcISR_ret_of_not_bothFresh reading s ?_
        have h1 := h.1
        simp [Event.isAdc] at h1
        exact h1
    calc (run s (e :: es)).checkWheelsFrequenciesReturnValue
        = (run (step s e) es).checkWheelsFrequenciesReturnValue := rfl
      _ = (step s e).checkWheelsFrequenciesReturnValue := ih (step s e) h.2
      _ = s.checkWheelsFrequenciesReturnValue := hstep

/-- `noDualFreshRun` splits over append. -/
theorem noDualFreshRun_append (l₁ : List Event) : ∀ (s : AbsState) (l₂ : List Event),
    noDualFreshRun s (l₁ ++ l₂) =
      (noDualFreshRun s l₁ && noDualFreshRun (run s l₁) l₂) := by
  induction l₁ with
  | nil => intro s l₂; simp [noDualFreshRun, run]
  | cons e es ih =>
    intro s l₂
    have hrun : run s (e :: es) = run (step s e) es := rfl
    simp only [List.cons_append, noDualFreshRun, List.append_eq,
      ih (step s e) l₂, hrun, Bool.and_assoc]

/-- C8: from startup, along any interrupt sequence in which no control
cycle yet sees both samples simultaneously fresh, the stored
classification stays at its initial value 0 (Balanced); consequently the
control cycle ending such a sequence forces neither command to the
minimum and writes the baseline-scaled command 1000 + b * 16 to both
wheels, b being the clamped baseline of that cycle. -/
theorem C8_balanced_until_both_fresh (es : List Event) (reading : Nat)
    (h : noDualFreshRun initState (es ++ [Event.adc reading]) = true) :
    (run initState es).checkWheelsFrequenciesReturnValue = 0 ∧
    (run initState
        (es ++ [Event.adc reading])).checkWheelsFrequenciesReturnValue = 0 ∧
    (run initState (es ++ [Event.adc reading])).OCR1A =
      1000 + clampServoValue (128 - (reading : Int)) * 16 ∧
    (run initState (es ++ [Event.adc reading])).OCR1B =
      1000 + clampServoValue (128 - (reading : Int)) * 16 := by
  rw [noDualFreshRun_append, Bool.and_eq_true] at h
  obtain ⟨h1, h2⟩ := h
  have hret : (run initState es).checkWheelsFrequenciesReturnValue = 0 :=
    noDualFreshRun_ret es initState h1
  have hbf : bothFreshB (run initState es) = false := by
    simp [noDualFreshRun, Event.isAdc] at h2
    exact h2
  have hfr := (bothFreshB_eq_false_iff (run initState es)).mp hbf
  have hrun : run initState (es ++ [Event.adc reading]) =
      adcISR reading (run initState es) := by
    rw [run_append]
    rfl
  refine ⟨hret, ?_, ?_, ?_⟩ <;>
    rw [hrun] <;>
    simp only [adcISR, setServoPosition,
      checkWheelsFrequencies_frame (run initState es) hfr, hret] <;>
    norm_num

/-- Witness for C8: a rising front edge, one tick, a falling front edge
(publishing front width 1, rear still Unknown), then a control cycle with
lever reading 28; the classification stays 0 and both commands equal
1000 + clamp(128 - 28) * 16 = 2600. -/
theorem C8_balanced_until_both_fresh_witness :
    (run initState
        [Event.frontEdge true, Event.tick, Event.frontEdge false]
        ).checkWheelsFrequenciesReturnValue = 0 ∧
    (run initState
        ([Event.frontEdge true, Event.tick, Event.frontEdge false] ++
          [Event.adc 28])).checkWheelsFrequenciesReturnValue = 0 ∧
    (run initState
        ([Event.frontEdge true, Event.tick, Event.frontEdge false] ++
          [Event.adc 28])).OCR1A =
      1000 + clampServoValue (128 - ((28 : Nat) : Int)) * 16 ∧
    (run initState
        ([Event.frontEdge true, Event.tick, Event.frontEdge false] ++
          [Event.adc 28])).OCR1B =
      1000 + clampServoValue (128 - ((28 : Nat) : Int)) * 16 :=
  C8_balanced_until_both_fresh
    [Event.frontEdge true, Event.tick, Event.frontEdge false] 28 (by decide)

/-- C10: the Unknown marker is the all-ones 32-bit value 4294967295
(2 ^ 32 - 1), so a published pulse width of exactly that value is
indistinguishable from Unknown: the comparator evaluation leaves the
whole state unchanged (no classification update, nothing consumed). -/
theorem C10_sentinel_aliasing :
    UNKNOWN = 4294967295 ∧
    (∀ s : AbsState, s.frontWheelPeriod = 4294967295 → checkWheelsFrequencies s = s) ∧
    (∀ s : AbsState, s.rearWheelPeriod = 4294967295 → checkWheelsFrequencies s = s) := by
  refine ⟨UNKNOWN_eq, fun s h => ?_, fun s h => ?_⟩
  · exact checkWheelsFrequencies_frame s (Or.inl (by rw [h, UNKNOWN_eq]))
  · exact checkWheelsFrequencies_frame s (Or.inr (by rw [h, UNKNOWN_eq]))

/-- Witness for C10: a front width equal to 4294967295 together with a
perfectly fresh rear width 60 still produces no classification update and
no consumption. -/
theorem C10_sentinel_aliasing_witness :
    checkWheelsFrequencies
        { initState with frontWheelPeriod := 4294967295, rearWheelPeriod := 60 } =
      { initState with frontWheelPeriod := 4294967295, rearWheelPeriod := 60 } :=
  C10_sentinel_aliasing.2.1
    { initState with frontWheelPeriod := 4294967295, rearWheelPeriod := 60 } rfl

end BicycleABS
